import Mathlib

/-!
Verification of the ANPR multi-channel stream-processing orchestrator.

Shallow embedding of `src/anpr/workers/channel_worker.py` (class `ChannelWorker`:
`_process_events`, `_loop`, `run`, `stop`) and of the stop-all path of
`src/anpr/ui/main_window.py` (`MainWindow._stop_workers`).

The worker is modelled as a fueled interpreter over an `Env` of oracles:
whether `_build_pipeline` raises, whether `_open_capture` succeeds, the outcome
of each `capture.read` call, the combined outcome of `detector.track` +
`pipeline.process_frame` per frame, the outcome of each
`storage.insert_event_async` call, the id the gateway assigns, the UTC clock
sampled by `datetime.now`, and the value of the `_running` flag observed at each
loop-condition check (the flag is written concurrently by `stop`).

Side effects are recorded in an emission trace (`Emit`): status / event / frame
signals, persisted rows, and `capture.release()` calls.  Frame buffers live in
a small heap (`Nat → Pixels`): `capture.read` overwrites the adapter buffer at
address `capAddr`, `cv2.cvtColor` allocates a fresh RGB buffer, and
`QImage(...).copy()` allocates a second, independently owned buffer that is the
one carried by the frame signal.
-/

namespace ANPR

/-- One recognition result dict produced by the pipeline collaborator.
Python dict lookups with defaults are modelled by `Option` fields:
`res.get("text")`, `res.get("confidence", 0.0)`, `res.get("unreadable")`,
`res.get("track_id", "-")`. -/
structure RecognitionResult where
  text : Option String
  confidence : Option Rat
  unreadable : Bool
  track_id : Option Nat
deriving DecidableEq

/-- The event dict assembled in `_process_events` (timestamps are clock ticks;
`id` is `none` until the persistence gateway assigns one). -/
structure Event where
  timestamp : Nat
  channel : String
  plate : String
  confidence : Rat
  source : String
  id : Option Nat
deriving DecidableEq

/-- Pixel-buffer contents: raw capture frames are BGR, `cv2.cvtColor` with
`COLOR_BGR2RGB` turns content `c` into its RGB form. -/
inductive Pixels
  | bgr (c : Nat)
  | rgb (c : Nat)
deriving DecidableEq

/-- Observable actions of a worker: the three Qt signals (`status_ready`,
`event_ready`, `frame_ready`), a persisted row (the successful
`insert_event_async` call), and `capture.release()`. -/
inductive Emit
  | statusNotif (channel text : String)
  | persistEv (e : Event)
  | eventNotif (e : Event)
  | frameNotif (channel : String) (addr : Nat)
  | release
deriving DecidableEq

/-- The `channel_conf` dict: `get("name", "Канал")` and `get("source", "0")`
are modelled by `Option` fields with those defaults applied at use sites. -/
structure ChannelConf where
  name : Option String
  source : Option String
deriving DecidableEq

/-- Oracles for everything outside the worker's own control flow. -/
structure Env where
  /-- `some msg` when `_build_pipeline` (line 94) raises with message `msg`. -/
  buildFail : Option String
  /-- whether `_open_capture` returns a handle (line 98) rather than `None`. -/
  openOk : Bool
  /-- outcome of the i-th `capture.read` (line 107): `some c` is a frame with
  raw content `c`, `none` is `ret = False` (end of stream). -/
  reads : Nat → Option Nat
  /-- combined outcome of `detector.track` + `pipeline.process_frame`
  (lines 113-114) on the i-th frame: results, or a raised exception. -/
  proc : Nat → Except String (List RecognitionResult)
  /-- `some msg` when the n-th insert attempt (counted by rows already
  persisted) raises inside `insert_event_async` (line 77). -/
  insertFails : Nat → Option String
  /-- id the gateway assigns to the n-th persisted row. -/
  assignedId : Nat → Nat
  /-- UTC clock value returned by the n-th `datetime.now(timezone.utc)` call. -/
  clock : Nat → Nat
  /-- value of `self._running` observed at the i-th `while` check (line 106);
  `stop` flips the flag from another thread, so it is an oracle per check. -/
  running : Nat → Bool

/-- Worker-run state threaded through the interpreter. -/
structure WState where
  /-- rows persisted through the gateway, in insertion order. -/
  db : List Event
  /-- ordered log of observable actions. -/
  trace : List Emit
  /-- frame-buffer heap. -/
  heap : Nat → Pixels
  /-- next fresh heap address. -/
  nextAddr : Nat
  /-- number of `datetime.now` calls so far. -/
  nowCount : Nat
  /-- number of `while self._running` checks so far. -/
  flagChecks : Nat
  /-- whether the worker reached the streaming loop (line 104). -/
  enteredStreaming : Bool

/-- Address of the Capture Adapter's internal frame buffer. -/
def capAddr : Nat := 0

/-- State at worker start. -/
def initState : WState :=
  { db := [], trace := [], heap := fun _ => Pixels.bgr 0, nextAddr := 1,
    nowCount := 0, flagChecks := 0, enteredStreaming := false }

/-- Python truthiness of `res.get("text")`: present and non-empty. -/
def textTruthy : Option String → Bool
  | none => false
  | some s => s != ""

/-- A result that `_process_events` turns into an event: not unreadable and
with truthy text. -/
def qualifies (r : RecognitionResult) : Bool := !r.unreadable && textTruthy r.text

/-- `ChannelWorker._process_events` (lines 58-91): iterate over `results`;
skip unreadable ones; for truthy text build the event dict (sampling the
clock), insert it (which may raise: the returned `Option String` is the
propagated exception message), record the row, and emit `event_ready`. -/
def processEvents (env : Env) (source channel : String) :
    WState → List RecognitionResult → WState × Option String
  | s, [] => (s, none)
  | s, res :: rest =>
    if res.unreadable then
      processEvents env source channel s rest
    else if textTruthy res.text then
      let ev0 : Event :=
        { timestamp := env.clock s.nowCount, channel := channel,
          plate := res.text.getD "", confidence := res.confidence.getD 0,
          source := source, id := none }
      let s1 : WState := { s with nowCount := s.nowCount + 1 }
      match env.insertFails s1.db.length with
      | some msg => (s1, some msg)
      | none =>
        let ev : Event := { ev0 with id := some (env.assignedId s1.db.length) }
        let s2 : WState :=
          { s1 with db := s1.db ++ [ev],
                    trace := s1.trace ++ [Emit.persistEv ev, Emit.eventNotif ev] }
        processEvents env source channel s2 rest
    else
      processEvents env source channel s rest

/-- Outcome of one iteration of the `while` loop body. -/
inductive BodyOut
  | next
  | brk
  | exn (msg : String)
deriving DecidableEq

/-- One pass through the `while self._running` loop (lines 106-125), starting
at the condition check: read a frame (overwriting the adapter buffer at
`capAddr`), run the collaborators, process events, build the RGB copy
(`cvtColor` allocates one fresh buffer, `QImage(...).copy()` a second one) and
emit `frame_ready` with the copied buffer's address. -/
def loopBody (env : Env) (channel source : String) (i : Nat) (s : WState) :
    WState × BodyOut :=
  let s0 : WState := { s with flagChecks := s.flagChecks + 1 }
  if env.running i = false then (s0, .brk)
  else
    match env.reads i with
    | none =>
      ({ s0 with trace := s0.trace ++ [Emit.statusNotif channel "Поток остановлен"] }, .brk)
    | some c =>
      let s1 : WState := { s0 with heap := Function.update s0.heap capAddr (Pixels.bgr c) }
      match env.proc i with
      | .error msg => (s1, .exn msg)
      | .ok results =>
        match processEvents env source channel s1 results with
        | (s2, some msg) => (s2, .exn msg)
        | (s2, none) =>
          let rgbAddr := s2.nextAddr
          let rgbPix : Pixels :=
            match s2.heap capAddr with
            | .bgr b => Pixels.rgb b
            | .rgb b => Pixels.rgb b
          let s3 : WState :=
            { s2 with heap := Function.update s2.heap rgbAddr rgbPix,
                      nextAddr := s2.nextAddr + 1 }
          let qAddr := s3.nextAddr
          let s4 : WState :=
            { s3 with heap := Function.update s3.heap qAddr (s3.heap rgbAddr),
                      nextAddr := s3.nextAddr + 1 }
          ({ s4 with trace := s4.trace ++ [Emit.frameNotif channel qAddr] }, .next)

/-- How a run of the `while` loop ended: fell through to line 127 (`done`),
raised (`exn`), or ran out of simulation fuel (`fuelOut`). -/
inductive LoopExit
  | done
  | exn (msg : String)
  | fuelOut
deriving DecidableEq

/-- The `while self._running` loop, fueled by the number of iterations
simulated. -/
def loopGo (env : Env) (channel source : String) :
    Nat → Nat → WState → WState × LoopExit
  | 0, _, s => (s, .fuelOut)
  | fuel + 1, i, s =>
    match loopBody env channel source i s with
    | (s', .next) => loopGo env channel source fuel (i + 1) s'
    | (s', .brk) => (s', .done)
    | (s', .exn msg) => (s', .exn msg)

/-- `ChannelWorker._loop` (lines 93-127): build the pipeline (may raise), open
the capture; on failure emit the "Нет сигнала" status and return; on success
enter the streaming loop and, when the loop falls through, call
`capture.release()`.  Note that `release` only runs on the fall-through path:
an exception out of the loop body skips line 127. -/
def loopModel (env : Env) (conf : ChannelConf) (fuel : Nat) : WState × LoopExit :=
  match env.buildFail with
  | some msg => (initState, .exn msg)
  | none =>
    let source := conf.source.getD "0"
    if env.openOk = false then
      ({ initState with
          trace := [Emit.statusNotif (conf.name.getD "Канал") "Нет сигнала"] }, .done)
    else
      let channel := conf.name.getD "Канал"
      let s0 : WState := { initState with enteredStreaming := true }
      match loopGo env channel source fuel 0 s0 with
      | (s, .done) => ({ s with trace := s.trace ++ [Emit.release] }, .done)
      | (s, e) => (s, e)

/-- `ChannelWorker.run` (lines 129-134): run `_loop`; any exception is caught
at the worker boundary and reported as an "Ошибка: ..." status for the
channel; nothing escapes `run`. -/
def runWorker (env : Env) (conf : ChannelConf) (fuel : Nat) : WState × LoopExit :=
  match loopModel env conf fuel with
  | (s, .exn msg) =>
    ({ s with
        trace := s.trace ++
          [Emit.statusNotif (conf.name.getD "Канал") ("Ошибка: " ++ msg)] }, .done)
  | r => r

/-- One worker per configured channel, each run over its own environment; a
worker's outcome is a function of its own job only. -/
def runPool (jobs : List (Env × ChannelConf)) (fuel : Nat) : List (WState × LoopExit) :=
  jobs.map (fun j => runWorker j.1 j.2 fuel)

/-- The fields of a `ChannelWorker` object set in `__init__` (lines 22-37). -/
structure ChannelWorker where
  channel_conf : ChannelConf
  db_path : String
  running : Bool
  best_shots : Nat
  cooldown_seconds : Nat
  min_confidence : Rat
deriving DecidableEq

/-- `ChannelWorker.__init__`: store the configuration and set `_running`. -/
def ChannelWorker.mkWorker (conf : ChannelConf) (db_path : String)
    (best_shots cooldown_seconds : Nat) (min_confidence : Rat) : ChannelWorker :=
  { channel_conf := conf, db_path := db_path, running := true,
    best_shots := best_shots, cooldown_seconds := cooldown_seconds,
    min_confidence := min_confidence }

/-- `ChannelWorker.stop` (lines 136-137): clear `_running`; the returned list
is everything `stop` emits (nothing). -/
def ChannelWorker.stop (w : ChannelWorker) : ChannelWorker × List Emit :=
  ({ w with running := false }, [])

/-- `MainWindow._stop_workers` (lines 142-146): for each worker call `stop()`
then `wait(1000)` (1000 ms bound, return value ignored), and clear the worker
list.  Result: per worker the stopped object and the wait bound used, plus the
new (empty) worker list. -/
def stopWorkers (ws : List ChannelWorker) :
    List (ChannelWorker × Nat) × List ChannelWorker :=
  (ws.map (fun w => ((ChannelWorker.stop w).1, 1000)), [])

/-! ## Spec-side characterizations used in theorem statements -/

/-- The event `_process_events` assembles for result `r` when `dbLen` rows are
already persisted and `nowC` clock samples were taken. -/
def mkEvent (env : Env) (source channel : String) (dbLen nowC : Nat)
    (r : RecognitionResult) : Event :=
  { timestamp := env.clock nowC, channel := channel, plate := r.text.getD "",
    confidence := r.confidence.getD 0, source := source,
    id := some (env.assignedId dbLen) }

/-- The rows a failure-free pass of `_process_events` persists: one per
qualifying result, in order. -/
def eventsOf (env : Env) (source channel : String) :
    Nat → Nat → List RecognitionResult → List Event
  | _, _, [] => []
  | dbLen, nowC, r :: rest =>
    if qualifies r then
      mkEvent env source channel dbLen nowC r ::
        eventsOf env source channel (dbLen + 1) (nowC + 1) rest
    else
      eventsOf env source channel dbLen nowC rest

/-- Trace fragment produced by persisting and notifying a list of events. -/
def eventsTrace : List Event → List Emit
  | [] => []
  | e :: rest => Emit.persistEv e :: Emit.eventNotif e :: eventsTrace rest

/-- Emission is a status signal. -/
def isStatus : Emit → Bool
  | .statusNotif _ _ => true
  | _ => false

/-- Emission is a frame signal. -/
def isFrame : Emit → Bool
  | .frameNotif _ _ => true
  | _ => false

/-- Emission is a `capture.release()` call. -/
def isRelease : Emit → Bool
  | .release => true
  | _ => false

/-- Emission is an event signal. -/
def isEventN : Emit → Bool
  | .eventNotif _ => true
  | _ => false

/-- Emission is a persisted row or an event signal. -/
def isPE : Emit → Bool
  | .persistEv _ => true
  | .eventNotif _ => true
  | _ => false

/-- The buffer address carried by a frame signal. -/
def frameAddrFn : Emit → Option Nat
  | .frameNotif _ a => some a
  | _ => none

/-- Addresses of the buffers carried by the frame signals of a trace, in
order. -/
def frameAddrs (t : List Emit) : List Nat := t.filterMap frameAddrFn

/-! ## Helper lemmas -/

lemma textTruthy_iff (t : Option String) : textTruthy t = true ↔ t.getD "" ≠ "" := by
  cases t <;> simp [textTruthy]

lemma mem_eventsTrace {e : Emit} :
    ∀ {evs : List Event}, e ∈ eventsTrace evs → isPE e = true := by
  intro evs
  induction evs with
  | nil => intro h; simp [eventsTrace] at h
  | cons ev rest ih =>
    intro h
    simp only [eventsTrace, List.mem_cons] at h
    rcases h with h | h | h
    · subst h; rfl
    · subst h; rfl
    · exact ih h

lemma isPE_flags {e : Emit} (h : isPE e = true) :
    isStatus e = false ∧ isRelease e = false ∧ isFrame e = false ∧
      frameAddrFn e = none := by
  cases e <;> simp_all [isPE, isStatus, isRelease, isFrame, frameAddrFn]

lemma countP_eq_zero_of_PE {t : List Emit} (h : ∀ e ∈ t, isPE e = true) :
    t.countP isStatus = 0 ∧ t.countP isRelease = 0 ∧ t.countP isFrame = 0 ∧
      frameAddrs t = [] := by
  refine ⟨?_, ?_, ?_, ?_⟩
  · exact List.countP_eq_zero.mpr fun e he => by simp [(isPE_flags (h e he)).1]
  · exact List.countP_eq_zero.mpr fun e he => by simp [(isPE_flags (h e he)).2.1]
  · exact List.countP_eq_zero.mpr fun e he => by simp [(isPE_flags (h e he)).2.2.1]
  · exact List.filterMap_eq_nil_iff.mpr fun e he => (isPE_flags (h e he)).2.2.2

lemma frameAddrs_append (t u : List Emit) :
    frameAddrs (t ++ u) = frameAddrs t ++ frameAddrs u := by
  simp [frameAddrs]

lemma eventsOf_length (env : Env) (source channel : String) :
    ∀ (rs : List RecognitionResult) (d n : Nat),
      (eventsOf env source channel d n rs).length = rs.countP qualifies := by
  intro rs
  induction rs with
  | nil => intro d n; simp [eventsOf]
  | cons r rest ih =>
    intro d n
    by_cases hq : qualifies r = true <;>
      simp [eventsOf, hq, List.countP_cons, ih]

lemma eventsOf_eq_nil (env : Env) (source channel : String) :
    ∀ (rs : List RecognitionResult) (d n : Nat),
      eventsOf env source channel d n rs = [] ↔
        ∀ r ∈ rs, r.unreadable = true ∨ r.text.getD "" = "" := by
  intro rs
  induction rs with
  | nil => intro d n; simp [eventsOf]
  | cons r rest ih =>
    intro d n
    by_cases hq : qualifies r = true
    · have : ¬ (r.unreadable = true ∨ r.text.getD "" = "") := by
        simp only [qualifies, Bool.and_eq_true, Bool.not_eq_true'] at hq
        rcases hq with ⟨h1, h2⟩
        push_neg
        exact ⟨by simp [h1], (textTruthy_iff r.text).mp h2⟩
      simp [eventsOf, hq, this]
    · have hd : r.unreadable = true ∨ r.text.getD "" = "" := by
        simp only [qualifies, Bool.and_eq_true, Bool.not_eq_true'] at hq
        push_neg at hq
        by_cases hu : r.unreadable = true
        · exact Or.inl hu
        · refine Or.inr ?_
          have h2 := hq (by simp [Bool.not_eq_true] at hu; exact hu)
          by_contra h3
          exact h2 ((textTruthy_iff r.text).mpr h3)
      simp [eventsOf, hq, ih, hd]

/-- Failure-free characterization of `_process_events`: it appends exactly the
rows of `eventsOf` to the store, appends the matching persist/notify pairs to
the trace, samples the clock once per qualifying result, and changes nothing
else. -/
lemma processEvents_ok (env : Env) (source channel : String)
    (hin : ∀ n, env.insertFails n = none) :
    ∀ (rs : List RecognitionResult) (s : WState),
      processEvents env source channel s rs
        = ({ s with
              db := s.db ++ eventsOf env source channel s.db.length s.nowCount rs,
              trace := s.trace ++
                eventsTrace (eventsOf env source channel s.db.length s.nowCount rs),
              nowCount := s.nowCount + rs.countP qualifies }, none) := by
  intro rs
  induction rs with
  | nil => intro s; simp [processEvents, eventsOf, eventsTrace]
  | cons r rest ih =>
    intro s
    by_cases hu : r.unreadable = true
    · have hq : qualifies r = false := by simp [qualifies, hu]
      simpa [processEvents, hu, eventsOf, hq, List.countP_cons] using ih s
    · rw [Bool.not_eq_true] at hu
      by_cases ht : textTruthy r.text = true
      · have hq : qualifies r = true := by simp [qualifies, hu, ht]
        simp only [processEvents, hu, Bool.false_eq_true, if_false, ht, if_true]
        rw [hin]
        rw [ih]
        simp only [eventsOf, hq, if_true, eventsTrace, List.countP_cons, hq]
        refine Prod.ext ?_ rfl
        simp only [mkEvent, List.length_append, List.length_cons, List.length_nil]
        congr 1
        · simp [List.append_assoc]
        · simp [List.append_assoc]
        · omega
      · have hq : qualifies r = false := by simp [qualifies, ht]
        have ht' : textTruthy r.text = false := by
          rwa [Bool.not_eq_true] at ht
        simpa [processEvents, hu, ht', eventsOf, hq, List.countP_cons] using ih s

/-- One successful loop iteration: flag observed true, a frame read, the
collaborators succeed, no insert fails.  The body continues the loop, emits
only persist/notify pairs plus exactly one frame signal, allocates the two
fresh buffers, leaves other live buffers untouched, and the emitted buffer
(at `s.nextAddr + 1`) holds the RGB conversion of the frame just read. -/
lemma loopBody_next (env : Env) (ch src : String) (i : Nat) (s : WState)
    (c : Nat) (rs : List RecognitionResult)
    (hr : env.running i = true) (hc : env.reads i = some c)
    (hp : env.proc i = Except.ok rs)
    (hin : ∀ n, env.insertFails n = none) :
    loopBody env ch src i s = ((loopBody env ch src i s).1, BodyOut.next)
      ∧ (∃ δ, (loopBody env ch src i s).1.trace
            = s.trace ++ δ ++ [Emit.frameNotif ch (s.nextAddr + 1)]
          ∧ ∀ e ∈ δ, isPE e = true)
      ∧ (loopBody env ch src i s).1.flagChecks = s.flagChecks + 1
      ∧ (loopBody env ch src i s).1.nextAddr = s.nextAddr + 2
      ∧ (loopBody env ch src i s).1.enteredStreaming = s.enteredStreaming
      ∧ (∀ a, a ≠ capAddr → a < s.nextAddr →
          (loopBody env ch src i s).1.heap a = s.heap a)
      ∧ (loopBody env ch src i s).1.heap (s.nextAddr + 1) = Pixels.rgb c := by
  refine ⟨?_, ?_, ?_, ?_, ?_, ?_, ?_⟩
  · have h2 : (loopBody env ch src i s).2 = BodyOut.next := by
      simp [loopBody, hr, hc, hp, processEvents_ok env src ch hin,
        Function.update_same]
    exact Prod.ext rfl h2
  · refine ⟨eventsTrace (eventsOf env src ch s.db.length s.nowCount rs),
      ?_, fun e he => mem_eventsTrace he⟩
    simp [loopBody, hr, hc, hp, processEvents_ok env src ch hin,
      Function.update_same, List.append_assoc]
  · simp [loopBody, hr, hc, hp, processEvents_ok env src ch hin,
      Function.update_same]
  · simp [loopBody, hr, hc, hp, processEvents_ok env src ch hin,
      Function.update_same]
  · simp [loopBody, hr, hc, hp, processEvents_ok env src ch hin,
      Function.update_same]
  · intro a ha hlt
    have ha0 : a ≠ (0 : Nat) := by simpa [capAddr] using ha
    have h1 : a ≠ s.nextAddr := by omega
    have h2 : a ≠ s.nextAddr + 1 := by omega
    simp [loopBody, hr, hc, hp, processEvents_ok env src ch hin,
      Function.update_same, Function.update_noteq, ha0, h1, h2, capAddr]
  · simp [loopBody, hr, hc, hp, processEvents_ok env src ch hin,
      Function.update_same]

/-- `k` consecutive successful iterations of the streaming loop, from any
iteration index and state: the loop advances to index `i + k`, emits no
status and no release, emits exactly one frame signal per frame at the
predictable fresh addresses, observes the stop flag once per iteration, never
touches previously allocated buffers other than the adapter buffer, and each
emitted buffer holds the RGB conversion of its own frame. -/
lemma loopGo_good (env : Env) (ch src : String)
    (hin : ∀ n, env.insertFails n = none) :
    ∀ (k i fuel : Nat) (s : WState),
      (∀ j, j < k → env.running (i + j) = true) →
      (∀ j, j < k → ∃ c, env.reads (i + j) = some c) →
      (∀ j, j < k → ∃ rs, env.proc (i + j) = Except.ok rs) →
      ∃ s',
        loopGo env ch src (fuel + k) i s = loopGo env ch src fuel (i + k) s'
        ∧ (∃ δ, s'.trace = s.trace ++ δ
            ∧ δ.countP isStatus = 0 ∧ δ.countP isRelease = 0
            ∧ δ.countP isFrame = k
            ∧ frameAddrs δ = (List.range k).map (fun j => s.nextAddr + 2 * j + 1))
        ∧ s'.flagChecks = s.flagChecks + k
        ∧ s'.nextAddr = s.nextAddr + 2 * k
        ∧ s'.enteredStreaming = s.enteredStreaming
        ∧ (∀ a, a ≠ capAddr → a < s.nextAddr → s'.heap a = s.heap a)
        ∧ (∀ j, j < k → s'.heap (s.nextAddr + 2 * j + 1)
              = Pixels.rgb ((env.reads (i + j)).getD 0)) := by
  intro k
  induction k with
  | zero =>
    intro i fuel s _ _ _
    exact ⟨s, by simp, ⟨[], by simp, by simp, by simp, by simp, by simp [frameAddrs]⟩,
      by simp, by simp, rfl, fun a _ _ => rfl, fun j hj => absurd hj (by omega)⟩
  | succ k ih =>
    intro i fuel s hrun hread hproc
    obtain ⟨c, hc⟩ := hread 0 (by omega)
    obtain ⟨rs, hp⟩ := hproc 0 (by omega)
    rw [Nat.add_zero] at hc hp
    have hr : env.running i = true := by simpa using hrun 0 (by omega)
    obtain ⟨hbody, ⟨δ0, htr0, hPE0⟩, hfc1, hna1, hes1, hheap1, hq1⟩ :=
      loopBody_next env ch src i s c rs hr hc hp hin
    set s1 := (loopBody env ch src i s).1 with hs1
    have hstep : loopGo env ch src (fuel + (k + 1)) i s
        = loopGo env ch src (fuel + k) (i + 1) s1 := by
      rw [show fuel + (k + 1) = (fuel + k) + 1 by omega]
      rw [loopGo, hbody]
    obtain ⟨s', hgo, ⟨δ1, htr1, hst1, hrl1, hfr1, hfa1⟩, hfc2, hna2, hes2, hheap2, hq2⟩ :=
      ih (i + 1) fuel s1
        (fun j hj => by
          have := hrun (j + 1) (by omega)
          rwa [show i + (j + 1) = i + 1 + j by omega] at this)
        (fun j hj => by
          have := hread (j + 1) (by omega)
          rwa [show i + (j + 1) = i + 1 + j by omega] at this)
        (fun j hj => by
          have := hproc (j + 1) (by omega)
          rwa [show i + (j + 1) = i + 1 + j by omega] at this)
    have h0 := countP_eq_zero_of_PE hPE0
    refine ⟨s', ?_, ?_, ?_, ?_, hes2.trans hes1, ?_, ?_⟩
    · rw [hstep, hgo, show i + 1 + k = i + (k + 1) by omega]
    · refine ⟨δ0 ++ [Emit.frameNotif ch (s.nextAddr + 1)] ++ δ1, ?_, ?_, ?_, ?_, ?_⟩
      · rw [htr1, htr0]; simp [List.append_assoc]
      · rw [List.countP_append, List.countP_append, h0.1, hst1]
        simp [List.countP_cons, isStatus]
      · rw [List.countP_append, List.countP_append, h0.2.1, hrl1]
        simp [List.countP_cons, isRelease]
      · rw [List.countP_append, List.countP_append, h0.2.2.1, hfr1,
          show List.countP isFrame [Emit.frameNotif ch (s.nextAddr + 1)] = 1 from rfl]
        omega
      · rw [frameAddrs_append, frameAddrs_append, h0.2.2.2, hfa1, hna1]
        have hmap : (fun j => s.nextAddr + 2 + 2 * j + 1)
            = fun j => s.nextAddr + 2 * (j + 1) + 1 := funext fun j => by omega
        rw [List.nil_append, hmap, List.range_succ_eq_map, List.map_cons,
          List.map_map]
        simp only [frameAddrs, frameAddrFn, List.filterMap_cons, List.filterMap_nil]
        rw [show s.nextAddr + 2 * 0 + 1 = s.nextAddr + 1 by omega]
        rfl
    · rw [hfc2, hfc1]; omega
    · rw [hna2, hna1]; omega
    · intro a ha hlt
      rw [hheap2 a ha (by omega), hheap1 a ha hlt]
    · intro j hj
      match j with
      | 0 =>
        rw [show s.nextAddr + 2 * 0 + 1 = s.nextAddr + 1 by omega,
          hheap2 (s.nextAddr + 1) (by simp [capAddr]) (by omega), hq1,
          Nat.add_zero, hc]
        rfl
      | j + 1 =>
        have := hq2 j (by omega)
        rw [hna1] at this
        rwa [show s.nextAddr + 2 * (j + 1) + 1 = s.nextAddr + 2 + 2 * j + 1 by omega,
          show i + (j + 1) = i + 1 + j by omega]

/-- A worker that streams `k` successful frames and then observes the stop
flag cleared: full-run characterization of trace, flag checks, release, frame
buffers and exit. -/
lemma run_stops_after_k (env : Env) (conf : ChannelConf) (k fuel : Nat)
    (hb : env.buildFail = none) (ho : env.openOk = true)
    (hrun : ∀ j, j < k → env.running j = true) (hstop : env.running k = false)
    (hread : ∀ j, j < k → ∃ c, env.reads j = some c)
    (hproc : ∀ j, j < k → ∃ rs, env.proc j = Except.ok rs)
    (hin : ∀ n, env.insertFails n = none) :
    ∃ δ,
      (runWorker env conf (fuel + 1 + k)).1.trace = δ ++ [Emit.release]
      ∧ δ.countP isStatus = 0 ∧ δ.countP isRelease = 0 ∧ δ.countP isFrame = k
      ∧ frameAddrs δ = (List.range k).map (fun j => 2 * j + 2)
      ∧ (runWorker env conf (fuel + 1 + k)).1.flagChecks = k + 1
      ∧ (runWorker env conf (fuel + 1 + k)).2 = LoopExit.done
      ∧ (∀ j, j < k → (runWorker env conf (fuel + 1 + k)).1.heap (2 * j + 2)
            = Pixels.rgb ((env.reads j).getD 0)) := by
  obtain ⟨s', hgo, ⟨δ, htr, hst, hrl, hfr, hfa⟩, hfc, hna, _, _, hqj⟩ :=
    loopGo_good env (conf.name.getD "Канал") (conf.source.getD "0") hin k 0 (fuel + 1)
      ({ initState with enteredStreaming := true })
      (fun j hj => by simpa using hrun j hj)
      (fun j hj => by simpa using hread j hj)
      (fun j hj => by simpa using hproc j hj)
  rw [Nat.zero_add] at hgo
  have hbody : loopBody env (conf.name.getD "Канал") (conf.source.getD "0") k s'
      = ({ s' with flagChecks := s'.flagChecks + 1 }, BodyOut.brk) := by
    simp [loopBody, hstop]
  have hloop : loopGo env (conf.name.getD "Канал") (conf.source.getD "0")
        (fuel + 1 + k) 0 ({ initState with enteredStreaming := true })
      = ({ s' with flagChecks := s'.flagChecks + 1 }, LoopExit.done) := by
    rw [hgo]
    simp [loopGo, hbody]
  have hrw : runWorker env conf (fuel + 1 + k)
      = ({ s' with
            flagChecks := s'.flagChecks + 1
            trace := s'.trace ++ [Emit.release] }, LoopExit.done) := by
    simp [runWorker, loopModel, hb, ho, hloop]
  have htr' : s'.trace = δ := by
    rw [htr]; simp [initState]
  have hfc' : s'.flagChecks = k := by
    rw [hfc]; simp [initState]
  have hfa' : frameAddrs δ = (List.range k).map (fun j => 2 * j + 2) := by
    rw [hfa]
    have : (fun j => ({ initState with enteredStreaming := true } : WState).nextAddr + 2 * j + 1)
        = fun j : Nat => 2 * j + 2 := funext fun j => by simp [initState]; omega
    rw [this]
  refine ⟨δ, ?_, hst, hrl, hfr, hfa', ?_, ?_, ?_⟩
  · rw [hrw, ← htr']
  · rw [hrw, hfc']
  · rw [hrw]
  · intro j hj
    have := hqj j hj
    rw [Nat.zero_add] at this
    rw [hrw]
    simpa [initState, show (1 : Nat) + 2 * j + 1 = 2 * j + 2 by omega] using this

/-! ## Concrete inputs used in counterexamples and witnesses -/

/-- A concrete channel configuration. -/
def confG : ChannelConf := { name := some "Gate1", source := some "rtsp" }

/-- A readable recognition result. -/
def rGood : RecognitionResult :=
  { text := some "AB123CD", confidence := some (mkRat 92 100),
    unreadable := false, track_id := some 7 }

/-- An unreadable recognition result (with a confidence value). -/
def rBad : RecognitionResult :=
  { text := some "XY", confidence := some (mkRat 3 10),
    unreadable := true, track_id := none }

/-- A readable result with absent text. -/
def rEmpty : RecognitionResult :=
  { text := none, confidence := some (mkRat 1 2),
    unreadable := false, track_id := none }

/-- Base environment: everything succeeds, stop is requested after one frame. -/
def envOk : Env :=
  { buildFail := none, openOk := true, reads := fun _ => some 5,
    proc := fun _ => Except.ok [rGood, rBad, rEmpty],
    insertFails := fun _ => none, assignedId := fun n => n + 1,
    clock := fun n => 100 + n, running := fun i => i == 0 }

/-- Environment whose source cannot be opened. -/
def envNoSig : Env := { envOk with openOk := false }

/-- Environment with a single readable result per frame. -/
def envOne : Env := { envOk with proc := fun _ => Except.ok [rGood] }

/-- Environment where every insert attempt raises. -/
def envIns : Env :=
  { envOk with
    proc := fun _ => Except.ok [rGood]
    insertFails := fun _ => some "disk full" }

/-- Environment where `_build_pipeline` raises. -/
def envBoom : Env := { envOk with buildFail := some "boom" }

/-- Environment with one good frame and then end of stream, stop never
requested. -/
def envEos : Env :=
  { envOk with
    reads := fun i => if i == 0 then some 5 else none
    proc := fun _ => Except.ok [rGood]
    running := fun _ => true }

/-- Environment where the source opens and the detector raises on frame 0. -/
def envCrash : Env :=
  { envOk with proc := fun _ => Except.error "boom", running := fun _ => true }

/-- Contrast to `envCrash`: the same run but with healthy collaborators, so
the loop stops normally after one frame. -/
def envClean : Env := { envOk with proc := fun _ => Except.ok [] }

/-! ## Claims -/

/-- Claim C1 (code bug, evaluated): a worker whose Capture Adapter open
succeeded but whose detector raises during the streaming loop never calls
`capture.release()` — its run trace carries the fault status and zero release
actions — whereas the same worker with healthy collaborators releases exactly
once.  `capture.release()` (line 127) is not inside a `try/finally`, so the
exception raised at lines 113-115 skips it. -/
theorem release_skipped_on_loop_fault :
    envCrash.openOk = true
      ∧ (runWorker envCrash confG 5).1.trace
          = [Emit.statusNotif "Gate1" "Ошибка: boom"]
      ∧ (runWorker envCrash confG 5).1.trace.countP isRelease = 0
      ∧ (runWorker envClean confG 5).1.trace.countP isRelease = 1 :=
  ⟨rfl, by decide, by decide, by decide⟩

/-- Claim C2: for every list of `RecognitionResult` processed in a frame
(with a failure-free insert oracle), a row is persisted and an event
notification emitted for a result if and only if the result's unreadable flag
is false and its text is present and non-empty: the store gains exactly the
rows of `eventsOf` (one per qualifying result, regardless of confidence), the
trace gains exactly their persist/notify pairs, and the new rows are empty
exactly when every result is unreadable or has empty or absent text. -/
theorem events_iff_readable_nonempty (env : Env) (source channel : String)
    (hin : ∀ n, env.insertFails n = none) (s : WState)
    (rs : List RecognitionResult) :
    (processEvents env source channel s rs).1.db
        = s.db ++ eventsOf env source channel s.db.length s.nowCount rs
      ∧ (processEvents env source channel s rs).1.trace
        = s.trace ++ eventsTrace (eventsOf env source channel s.db.length s.nowCount rs)
      ∧ (eventsOf env source channel s.db.length s.nowCount rs).length
        = rs.countP qualifies
      ∧ (eventsOf env source channel s.db.length s.nowCount rs = []
          ↔ ∀ r ∈ rs, r.unreadable = true ∨ r.text.getD "" = "") := by
  refine ⟨?_, ?_, eventsOf_length env source channel rs s.db.length s.nowCount,
    eventsOf_eq_nil env source channel rs s.db.length s.nowCount⟩
  · rw [processEvents_ok env source channel hin]
  · rw [processEvents_ok env source channel hin]

/-- Claim C2 at a concrete input: one readable, one unreadable and one
empty-text result. -/
theorem events_iff_readable_nonempty_witness :
    (processEvents envOk "rtsp" "Gate1" initState [rGood, rBad, rEmpty]).1.db
        = initState.db ++
            eventsOf envOk "rtsp" "Gate1" initState.db.length initState.nowCount
              [rGood, rBad, rEmpty]
      ∧ (processEvents envOk "rtsp" "Gate1" initState [rGood, rBad, rEmpty]).1.trace
        = initState.trace ++
            eventsTrace (eventsOf envOk "rtsp" "Gate1" initState.db.length
              initState.nowCount [rGood, rBad, rEmpty])
      ∧ (eventsOf envOk "rtsp" "Gate1" initState.db.length initState.nowCount
            [rGood, rBad, rEmpty]).length
        = [rGood, rBad, rEmpty].countP qualifies
      ∧ (eventsOf envOk "rtsp" "Gate1" initState.db.length initState.nowCount
            [rGood, rBad, rEmpty] = []
          ↔ ∀ r ∈ [rGood, rBad, rEmpty],
              r.unreadable = true ∨ r.text.getD "" = "") :=
  events_iff_readable_nonempty envOk "rtsp" "Gate1" (fun _ => rfl) initState
    [rGood, rBad, rEmpty]

/-- Claim C3: for every channel configuration whose source cannot be opened
(and whose pipeline build succeeds), starting the worker emits exactly one
"Нет сигнала" status for that channel, persists nothing, emits no event and
no frame notification, never enters the streaming loop, and the worker
terminates normally. -/
theorem no_signal_when_open_fails (env : Env) (conf : ChannelConf) (fuel : Nat)
    (hb : env.buildFail = none) (ho : env.openOk = false) :
    (runWorker env conf fuel).1.trace
        = [Emit.statusNotif (conf.name.getD "Канал") "Нет сигнала"]
      ∧ (runWorker env conf fuel).1.trace.countP isEventN = 0
      ∧ (runWorker env conf fuel).1.trace.countP isFrame = 0
      ∧ (runWorker env conf fuel).1.db = []
      ∧ (runWorker env conf fuel).1.enteredStreaming = false
      ∧ (runWorker env conf fuel).2 = LoopExit.done := by
  have h : runWorker env conf fuel
      = ({ initState with
            trace := [Emit.statusNotif (conf.name.getD "Канал") "Нет сигнала"] },
         LoopExit.done) := by
    simp [runWorker, loopModel, hb, ho]
  rw [h]
  exact ⟨rfl, rfl, rfl, rfl, rfl, rfl⟩

/-- Claim C3 at a concrete input: channel "Gate1" with an unreachable
source. -/
theorem no_signal_when_open_fails_witness :
    (runWorker envNoSig confG 3).1.trace
        = [Emit.statusNotif (confG.name.getD "Канал") "Нет сигнала"]
      ∧ (runWorker envNoSig confG 3).1.trace.countP isEventN = 0
      ∧ (runWorker envNoSig confG 3).1.trace.countP isFrame = 0
      ∧ (runWorker envNoSig confG 3).1.db = []
      ∧ (runWorker envNoSig confG 3).1.enteredStreaming = false
      ∧ (runWorker envNoSig confG 3).2 = LoopExit.done :=
  no_signal_when_open_fails envNoSig confG 3 rfl rfl

/-- Claim C4: for a readable result with non-empty text on a streamed frame,
the worker assembles the event with timestamp equal to the clock value
sampled at classification time, channel equal to the worker's configured
channel name, source equal to the configured source string, plate and
confidence taken from the result, obtains the id from the persistence
gateway's insert, and emits the completed event (including the assigned id)
exactly once, immediately after the successful insert — the full run trace is
the persisted row, the event notification, the frame notification and the
release, in that order. -/
theorem event_assembly_and_emit_once (env : Env) (conf : ChannelConf)
    (r : RecognitionResult) (c fuel : Nat)
    (hb : env.buildFail = none) (ho : env.openOk = true)
    (hr0 : env.running 0 = true) (hd0 : env.reads 0 = some c)
    (hp0 : env.proc 0 = Except.ok [r])
    (h1 : r.unreadable = false) (h2 : textTruthy r.text = true)
    (hi : env.insertFails 0 = none) (hr1 : env.running 1 = false) :
    (runWorker env conf (fuel + 2)).1.trace
        = [Emit.persistEv (mkEvent env (conf.source.getD "0") (conf.name.getD "Канал") 0 0 r),
           Emit.eventNotif (mkEvent env (conf.source.getD "0") (conf.name.getD "Канал") 0 0 r),
           Emit.frameNotif (conf.name.getD "Канал") 2, Emit.release]
      ∧ (runWorker env conf (fuel + 2)).1.db
        = [mkEvent env (conf.source.getD "0") (conf.name.getD "Канал") 0 0 r]
      ∧ (mkEvent env (conf.source.getD "0") (conf.name.getD "Канал") 0 0 r).timestamp
        = env.clock 0
      ∧ (mkEvent env (conf.source.getD "0") (conf.name.getD "Канал") 0 0 r).channel
        = conf.name.getD "Канал"
      ∧ (mkEvent env (conf.source.getD "0") (conf.name.getD "Канал") 0 0 r).source
        = conf.source.getD "0"
      ∧ (mkEvent env (conf.source.getD "0") (conf.name.getD "Канал") 0 0 r).confidence
        = r.confidence.getD 0
      ∧ (mkEvent env (conf.source.getD "0") (conf.name.getD "Канал") 0 0 r).plate
        = r.text.getD ""
      ∧ (mkEvent env (conf.source.getD "0") (conf.name.getD "Канал") 0 0 r).id
        = some (env.assignedId 0)
      ∧ (runWorker env conf (fuel + 2)).2 = LoopExit.done := by
  refine ⟨?_, ?_, rfl, rfl, rfl, rfl, rfl, rfl, ?_⟩ <;>
    (rw [show fuel + 2 = fuel + 1 + 1 by omega]
     simp [runWorker, loopModel, hb, ho, loopGo, loopBody, hr0, hr1, hd0, hp0,
       processEvents, h1, h2, hi, initState, mkEvent, Function.update_same])

/-- Claim C4 at a concrete input: the readable result `rGood` on channel
"Gate1". -/
theorem event_assembly_and_emit_once_witness :
    (runWorker envOne confG (0 + 2)).1.trace
        = [Emit.persistEv (mkEvent envOne (confG.source.getD "0") (confG.name.getD "Канал") 0 0 rGood),
           Emit.eventNotif (mkEvent envOne (confG.source.getD "0") (confG.name.getD "Канал") 0 0 rGood),
           Emit.frameNotif (confG.name.getD "Канал") 2, Emit.release]
      ∧ (runWorker envOne confG (0 + 2)).1.db
        = [mkEvent envOne (confG.source.getD "0") (confG.name.getD "Канал") 0 0 rGood]
      ∧ (mkEvent envOne (confG.source.getD "0") (confG.name.getD "Канал") 0 0 rGood).timestamp
        = envOne.clock 0
      ∧ (mkEvent envOne (confG.source.getD "0") (confG.name.getD "Канал") 0 0 rGood).channel
        = confG.name.getD "Канал"
      ∧ (mkEvent envOne (confG.source.getD "0") (confG.name.getD "Канал") 0 0 rGood).source
        = confG.source.getD "0"
      ∧ (mkEvent envOne (confG.source.getD "0") (confG.name.getD "Канал") 0 0 rGood).confidence
        = rGood.confidence.getD 0
      ∧ (mkEvent envOne (confG.source.getD "0") (confG.name.getD "Канал") 0 0 rGood).plate
        = rGood.text.getD ""
      ∧ (mkEvent envOne (confG.source.getD "0") (confG.name.getD "Канал") 0 0 rGood).id
        = some (envOne.assignedId 0)
      ∧ (runWorker envOne confG (0 + 2)).2 = LoopExit.done :=
  event_assembly_and_emit_once envOne confG rGood 5 0 rfl rfl rfl rfl rfl rfl
    (by decide) rfl rfl

/-- Claim C5: if the persistence gateway insert raises for a frame's event,
the failure is not masked — no event notification is emitted for that result,
nothing is persisted, and the failure propagates out of the loop as a channel
fault surfaced as the "Ошибка: ..." status notification for the channel. -/
theorem insert_failure_propagates (env : Env) (conf : ChannelConf)
    (r : RecognitionResult) (c : Nat) (m : String) (fuel : Nat)
    (hb : env.buildFail = none) (ho : env.openOk = true)
    (hr0 : env.running 0 = true) (hd0 : env.reads 0 = some c)
    (hp0 : env.proc 0 = Except.ok [r])
    (h1 : r.unreadable = false) (h2 : textTruthy r.text = true)
    (hi : env.insertFails 0 = some m) :
    (runWorker env conf (fuel + 1)).1.trace
        = [Emit.statusNotif (conf.name.getD "Канал") ("Ошибка: " ++ m)]
      ∧ (runWorker env conf (fuel + 1)).1.trace.countP isEventN = 0
      ∧ (runWorker env conf (fuel + 1)).1.db = []
      ∧ (runWorker env conf (fuel + 1)).2 = LoopExit.done := by
  refine ⟨?_, ?_, ?_, ?_⟩ <;>
    simp [runWorker, loopModel, hb, ho, loopGo, loopBody, hr0, hd0, hp0,
      processEvents, h1, h2, hi, initState, isEventN]

/-- Claim C5 at a concrete input: the insert raises "disk full" for the
readable result `rGood`. -/
theorem insert_failure_propagates_witness :
    (runWorker envIns confG (4 + 1)).1.trace
        = [Emit.statusNotif (confG.name.getD "Канал") ("Ошибка: " ++ "disk full")]
      ∧ (runWorker envIns confG (4 + 1)).1.trace.countP isEventN = 0
      ∧ (runWorker envIns confG (4 + 1)).1.db = []
      ∧ (runWorker envIns confG (4 + 1)).2 = LoopExit.done :=
  insert_failure_propagates envIns confG rGood 5 "disk full" 4 rfl rfl rfl rfl
    rfl rfl (by decide) rfl

/-- Claim C6: every failure raised inside `_loop` (pipeline build, streaming
loop, collaborator or insert failures) is caught at the worker boundary by
`run`: the worker's outcome is never an escaped exception, a raised failure
becomes exactly one "Ошибка: ..." status notification carrying the cause for
that channel with the worker terminating normally, and each worker of a pool
is a function of its own job only, so one worker's fault cannot change
another worker's outcome. -/
theorem faults_contained_at_worker_boundary (env : Env) (conf : ChannelConf)
    (fuel : Nat) :
    (∀ msg, (runWorker env conf fuel).2 ≠ LoopExit.exn msg)
      ∧ (∀ s msg, loopModel env conf fuel = (s, LoopExit.exn msg) →
          runWorker env conf fuel
            = ({ s with trace := s.trace ++
                  [Emit.statusNotif (conf.name.getD "Канал") ("Ошибка: " ++ msg)] },
               LoopExit.done))
      ∧ (∀ jobs : List (Env × ChannelConf),
          runPool jobs fuel = jobs.map (fun j => runWorker j.1 j.2 fuel)) := by
  refine ⟨?_, ?_, fun jobs => rfl⟩
  · intro msg
    rcases h : loopModel env conf fuel with ⟨s, e⟩
    cases e <;> simp [runWorker, h]
  · intro s msg h
    simp [runWorker, h]

/-- Claim C6 at a concrete input: the pipeline build raises "boom" during
`Starting`. -/
theorem faults_contained_at_worker_boundary_witness :
    (∀ msg, (runWorker envBoom confG 1).2 ≠ LoopExit.exn msg)
      ∧ runWorker envBoom confG 1
        = ({ initState with trace := initState.trace ++
              [Emit.statusNotif (confG.name.getD "Канал") ("Ошибка: " ++ "boom")] },
           LoopExit.done) :=
  ⟨(faults_contained_at_worker_boundary envBoom confG 1).1,
   (faults_contained_at_worker_boundary envBoom confG 1).2.1 initState "boom" rfl⟩

/-- Claim C7: when the `k`-th read signals end of stream (after `k` good
frames), the worker emits the "Поток остановлен" status exactly once, exits
the loop without processing the failed read as a frame (exactly `k` frame
notifications in the whole run), releases the capture handle, and emits
nothing after the status except that release. -/
theorem end_of_stream_stops_gracefully (env : Env) (conf : ChannelConf)
    (k fuel : Nat)
    (hb : env.buildFail = none) (ho : env.openOk = true)
    (hrun : ∀ j, j ≤ k → env.running j = true)
    (hread : ∀ j, j < k → ∃ c, env.reads j = some c)
    (heos : env.reads k = none)
    (hproc : ∀ j, j < k → ∃ rs, env.proc j = Except.ok rs)
    (hin : ∀ n, env.insertFails n = none) :
    (∃ t, (runWorker env conf (fuel + 1 + k)).1.trace
        = t ++ [Emit.statusNotif (conf.name.getD "Канал") "Поток остановлен",
                Emit.release]
      ∧ t.countP isStatus = 0)
      ∧ (runWorker env conf (fuel + 1 + k)).1.trace.countP isStatus = 1
      ∧ (runWorker env conf (fuel + 1 + k)).1.trace.countP isRelease = 1
      ∧ (runWorker env conf (fuel + 1 + k)).1.trace.countP isFrame = k
      ∧ (runWorker env conf (fuel + 1 + k)).2 = LoopExit.done := by
  obtain ⟨s', hgo, ⟨δ, htr, hst, hrl, hfr, hfa⟩, hfc, hna, _, _, hqj⟩ :=
    loopGo_good env (conf.name.getD "Канал") (conf.source.getD "0") hin k 0 (fuel + 1)
      ({ initState with enteredStreaming := true })
      (fun j hj => by simpa using hrun j (by omega))
      (fun j hj => by simpa using hread j hj)
      (fun j hj => by simpa using hproc j hj)
  rw [Nat.zero_add] at hgo
  have hbody : loopBody env (conf.name.getD "Канал") (conf.source.getD "0") k s'
      = ({ s' with
            flagChecks := s'.flagChecks + 1
            trace := s'.trace ++
              [Emit.statusNotif (conf.name.getD "Канал") "Поток остановлен"] },
         BodyOut.brk) := by
    simp [loopBody, hrun k (le_refl k), heos]
  have hloop : loopGo env (conf.name.getD "Канал") (conf.source.getD "0")
        (fuel + 1 + k) 0 ({ initState with enteredStreaming := true })
      = ({ s' with
            flagChecks := s'.flagChecks + 1
            trace := s'.trace ++
              [Emit.statusNotif (conf.name.getD "Канал") "Поток остановлен"] },
         LoopExit.done) := by
    rw [hgo]
    simp [loopGo, hbody]
  have hrw : runWorker env conf (fuel + 1 + k)
      = ({ s' with
            flagChecks := s'.flagChecks + 1
            trace := (s'.trace ++
              [Emit.statusNotif (conf.name.getD "Канал") "Поток остановлен"]) ++
              [Emit.release] },
         LoopExit.done) := by
    simp [runWorker, loopModel, hb, ho, hloop]
  have htr' : s'.trace = δ := by rw [htr]; simp [initState]
  refine ⟨⟨δ, ?_, hst⟩, ?_, ?_, ?_, ?_⟩
  · rw [hrw]; simp [htr', List.append_assoc]
  · rw [hrw]; simp [htr', List.countP_append, List.countP_cons, isStatus, hst]
  · rw [hrw]; simp [htr', List.countP_append, List.countP_cons, isRelease, hrl]
  · rw [hrw]; simp [htr', List.countP_append, List.countP_cons, isFrame, hfr]
  · rw [hrw]

/-- Claim C7 at a concrete input: one good frame, then end of stream. -/
theorem end_of_stream_stops_gracefully_witness :
    (∃ t, (runWorker envEos confG (0 + 1 + 1)).1.trace
        = t ++ [Emit.statusNotif (confG.name.getD "Канал") "Поток остановлен",
                Emit.release]
      ∧ t.countP isStatus = 0)
      ∧ (runWorker envEos confG (0 + 1 + 1)).1.trace.countP isStatus = 1
      ∧ (runWorker envEos confG (0 + 1 + 1)).1.trace.countP isRelease = 1
      ∧ (runWorker envEos confG (0 + 1 + 1)).1.trace.countP isFrame = 1
      ∧ (runWorker envEos confG (0 + 1 + 1)).2 = LoopExit.done :=
  end_of_stream_stops_gracefully envEos confG 1 0 rfl rfl
    (fun _ _ => rfl)
    (fun j hj => by
      have hj0 : j = 0 := by omega
      subst hj0
      exact ⟨5, rfl⟩)
    rfl
    (fun j _ => ⟨[rGood], rfl⟩)
    (fun _ => rfl)

/-- Claim C8: stop is cooperative with one-frame granularity — with the stop
flag observed true for the first `k` checks and false at check `k + 1`, the
worker performs exactly `k` full frame cycles (one flag observation per
iteration, `k + 1` observations in total), then exits the loop, releases the
capture handle exactly once and terminates; and the pool's stop-all calls
`stop` on every worker (clearing its flag), waits with the bounded 1000 ms
timeout per worker, and proceeds regardless, clearing the worker list. -/
theorem stop_cooperative_bounded_wait (env : Env) (conf : ChannelConf)
    (k fuel : Nat)
    (hb : env.buildFail = none) (ho : env.openOk = true)
    (hrun : ∀ j, j < k → env.running j = true) (hstop : env.running k = false)
    (hread : ∀ j, j < k → ∃ c, env.reads j = some c)
    (hproc : ∀ j, j < k → ∃ rs, env.proc j = Except.ok rs)
    (hin : ∀ n, env.insertFails n = none) :
    (runWorker env conf (fuel + 1 + k)).1.flagChecks = k + 1
      ∧ (runWorker env conf (fuel + 1 + k)).1.trace.countP isFrame = k
      ∧ (runWorker env conf (fuel + 1 + k)).1.trace.countP isRelease = 1
      ∧ (runWorker env conf (fuel + 1 + k)).2 = LoopExit.done
      ∧ (∀ ws : List ChannelWorker,
          (stopWorkers ws).1.map Prod.snd = ws.map (fun _ => 1000)
            ∧ (∀ p ∈ (stopWorkers ws).1, p.1.running = false)
            ∧ (stopWorkers ws).2 = []) := by
  obtain ⟨δ, htr, hst, hrl, hfr, hfa, hfc, hexit, hheap⟩ :=
    run_stops_after_k env conf k fuel hb ho hrun hstop hread hproc hin
  refine ⟨hfc, ?_, ?_, hexit, ?_⟩
  · rw [htr]; simp [List.countP_append, List.countP_cons, isFrame, hfr]
  · rw [htr]; simp [List.countP_append, List.countP_cons, isRelease, hrl]
  · intro ws
    refine ⟨by simp [stopWorkers, Function.comp_def], ?_, rfl⟩
    intro p hp
    simp only [stopWorkers, List.mem_map] at hp
    obtain ⟨w, _, rfl⟩ := hp
    rfl

/-- Claim C8 at a concrete input: stop observed after one frame. -/
theorem stop_cooperative_bounded_wait_witness :
    (runWorker envOk confG (0 + 1 + 1)).1.flagChecks = 1 + 1
      ∧ (runWorker envOk confG (0 + 1 + 1)).1.trace.countP isFrame = 1
      ∧ (runWorker envOk confG (0 + 1 + 1)).1.trace.countP isRelease = 1
      ∧ (runWorker envOk confG (0 + 1 + 1)).2 = LoopExit.done
      ∧ (∀ ws : List ChannelWorker,
          (stopWorkers ws).1.map Prod.snd = ws.map (fun _ => 1000)
            ∧ (∀ p ∈ (stopWorkers ws).1, p.1.running = false)
            ∧ (stopWorkers ws).2 = []) :=
  stop_cooperative_bounded_wait envOk confG 1 0 rfl rfl
    (fun j hj => by
      have hj0 : j = 0 := by omega
      subst hj0
      rfl)
    rfl
    (fun j _ => ⟨5, rfl⟩)
    (fun j _ => ⟨[rGood, rBad, rEmpty], rfl⟩)
    (fun _ => rfl)

/-- Claim C9: for every frame successfully read while streaming, the worker
emits exactly one frame notification for the channel, and the image it
carries is an independently owned copy — its buffer address differs from the
Capture Adapter's internal buffer, and at the end of the run (after all later
reads overwrote the adapter buffer) that buffer still holds the RGB
conversion of its own frame. -/
theorem frame_copy_independent_ownership (env : Env) (conf : ChannelConf)
    (k fuel : Nat)
    (hb : env.buildFail = none) (ho : env.openOk = true)
    (hrun : ∀ j, j < k → env.running j = true) (hstop : env.running k = false)
    (hread : ∀ j, j < k → ∃ c, env.reads j = some c)
    (hproc : ∀ j, j < k → ∃ rs, env.proc j = Except.ok rs)
    (hin : ∀ n, env.insertFails n = none) :
    frameAddrs (runWorker env conf (fuel + 1 + k)).1.trace
        = (List.range k).map (fun j => 2 * j + 2)
      ∧ (runWorker env conf (fuel + 1 + k)).1.trace.countP isFrame = k
      ∧ (∀ j, j < k → 2 * j + 2 ≠ capAddr)
      ∧ (∀ j, j < k → (runWorker env conf (fuel + 1 + k)).1.heap (2 * j + 2)
            = Pixels.rgb ((env.reads j).getD 0)) := by
  obtain ⟨δ, htr, hst, hrl, hfr, hfa, hfc, hexit, hheap⟩ :=
    run_stops_after_k env conf k fuel hb ho hrun hstop hread hproc hin
  refine ⟨?_, ?_, ?_, hheap⟩
  · rw [htr, frameAddrs_append, hfa]
    simp [frameAddrs, frameAddrFn]
  · rw [htr]; simp [List.countP_append, List.countP_cons, isFrame, hfr]
  · intro j hj
    simp [capAddr]

/-- Claim C9 at a concrete input: one streamed frame with content 5. -/
theorem frame_copy_independent_ownership_witness :
    frameAddrs (runWorker envOne confG (0 + 1 + 1)).1.trace
        = (List.range 1).map (fun j => 2 * j + 2)
      ∧ (runWorker envOne confG (0 + 1 + 1)).1.trace.countP isFrame = 1
      ∧ (∀ j, j < 1 → 2 * j + 2 ≠ capAddr)
      ∧ (∀ j, j < 1 → (runWorker envOne confG (0 + 1 + 1)).1.heap (2 * j + 2)
            = Pixels.rgb ((envOne.reads j).getD 0)) :=
  frame_copy_independent_ownership envOne confG 1 0 rfl rfl
    (fun j hj => by
      have hj0 : j = 0 := by omega
      subst hj0
      rfl)
    rfl
    (fun j _ => ⟨5, rfl⟩)
    (fun j _ => ⟨[rGood], rfl⟩)
    (fun _ => rfl)

/-- Claim C10: `ChannelWorker.stop` only clears the internal running flag —
the channel configuration, database path, settings fields are all unchanged
and nothing is emitted. -/
theorem stop_only_clears_running_flag (w : ChannelWorker) :
    (ChannelWorker.stop w).1.running = false
      ∧ (ChannelWorker.stop w).1.channel_conf = w.channel_conf
      ∧ (ChannelWorker.stop w).1.db_path = w.db_path
      ∧ (ChannelWorker.stop w).1.best_shots = w.best_shots
      ∧ (ChannelWorker.stop w).1.cooldown_seconds = w.cooldown_seconds
      ∧ (ChannelWorker.stop w).1.min_confidence = w.min_confidence
      ∧ (ChannelWorker.stop w).2 = ([] : List Emit) :=
  ⟨rfl, rfl, rfl, rfl, rfl, rfl, rfl⟩

/-- A concrete worker object as built by `__init__`. -/
def wG : ChannelWorker := ChannelWorker.mkWorker confG "events.sqlite" 5 30 (mkRat 1 2)

/-- Claim C10 at a concrete worker object. -/
theorem stop_only_clears_running_flag_witness :
    (ChannelWorker.stop wG).1.running = false
      ∧ (ChannelWorker.stop wG).1.channel_conf = wG.channel_conf
      ∧ (ChannelWorker.stop wG).1.db_path = wG.db_path
      ∧ (ChannelWorker.stop wG).1.best_shots = wG.best_shots
      ∧ (ChannelWorker.stop wG).1.cooldown_seconds = wG.cooldown_seconds
      ∧ (ChannelWorker.stop wG).1.min_confidence = wG.min_confidence
      ∧ (ChannelWorker.stop wG).2 = ([] : List Emit) :=
  stop_only_clears_running_flag wG

end ANPR
